import Mathlib

/-!
Verification development for the Research_Analyzer repository.

The repository is a linear batch pipeline (src/main.py) that ingests research
papers as PDF paths, DOIs, or URLs, summarizes each item with an external
summarization model, classifies each summary by topic, converts summaries to
audio files, and synthesizes a final cross-item summary; src/api.py exposes the
pipeline over REST.

The development shallowly embeds the pure data flow of the Python source.
External collaborators (the PDF reader, the HTTP client, the HTML paragraph
extractor, the summarization model) are modelled as oracle functions packaged
in an environment record; an oracle result of none models the collaborator
raising an exception.  Fallible Python code is embedded as Option-valued
functions, where none models an uncaught exception propagating to the caller.

Python string primitives used by the source (split, strip, replace, count,
lower, join, slicing, os.path.basename) are embedded as structurally recursive
functions over the character list underlying a string, with Python semantics:
split/replace/count act on non-overlapping occurrences scanning left to right,
strip removes leading and trailing whitespace, lower is modelled on the ASCII
range (every string the source manipulates and every input used in concrete
evaluations below is ASCII).
-/

/-! ## Python string primitives -/

/-- Characters treated as whitespace by Python str.strip with no argument
(ASCII fragment). -/
def isPySpace (c : Char) : Bool :=
  c = ' ' ∨ c = '\t' ∨ c = '\n' ∨ c = '\r' ∨ c = '\x0b' ∨ c = '\x0c'

/-- Python str.strip(): remove leading and trailing whitespace. -/
def pyStrip (s : String) : String :=
  ⟨((s.data.dropWhile isPySpace).reverse.dropWhile isPySpace).reverse⟩

/-- Python sep.join(xs). -/
def pyJoin (sep : String) : List String → String
  | [] => ""
  | [x] => x
  | x :: xs => x ++ sep ++ pyJoin sep xs

/-- Worker for pySplit: the fuel argument is an upper bound on the number of
characters still to scan, making the recursion structural. -/
def pySplitAux (sep : List Char) : Nat → List Char → List Char → List (List Char)
  | _, [], acc => [acc.reverse]
  | 0, rest, acc => [acc.reverse ++ rest]
  | fuel + 1, c :: rest, acc =>
    if sep.isPrefixOf (c :: rest) then
      acc.reverse :: pySplitAux sep fuel (List.drop (sep.length - 1) rest) []
    else
      pySplitAux sep fuel rest (c :: acc)

/-- Python s.split(sep) for a non-empty separator: split at each
non-overlapping occurrence of sep, scanning left to right.  Python raises on
an empty separator; the source only ever splits on the two-character
separator of a blank line and on a slash, so that branch is never exercised
and is mapped to the identity split. -/
def pySplit (s sep : String) : List String :=
  if sep.data.isEmpty then [s]
  else (pySplitAux sep.data s.data.length s.data []).map (fun cs => (⟨cs⟩ : String))

/-- Worker for pyReplace, with the same fuel discipline as pySplitAux. -/
def pyReplaceAux (old new : List Char) : Nat → List Char → List Char
  | _, [] => []
  | 0, rest => rest
  | fuel + 1, c :: rest =>
    if old.isPrefixOf (c :: rest) then
      new ++ pyReplaceAux old new fuel (List.drop (old.length - 1) rest)
    else
      c :: pyReplaceAux old new fuel rest

/-- Python s.replace(old, new) for a non-empty pattern: replace every
non-overlapping occurrence, scanning left to right.  Every pattern appearing
in the source is non-empty; the empty-pattern branch is mapped to the
identity. -/
def pyReplace (s old new : String) : String :=
  if old.data.isEmpty then s
  else ⟨pyReplaceAux old.data new.data s.data.length s.data⟩

/-- Worker for pyCount, with the same fuel discipline as pySplitAux. -/
def pyCountAux (sub : List Char) : Nat → List Char → Nat
  | _, [] => 0
  | 0, _ => 0
  | fuel + 1, c :: rest =>
    if sub.isPrefixOf (c :: rest) then
      1 + pyCountAux sub fuel (List.drop (sub.length - 1) rest)
    else
      pyCountAux sub fuel rest

/-- Python s.count(sub): number of non-overlapping occurrences of sub in s,
scanning left to right; the empty pattern counts len(s) + 1 occurrences. -/
def pyCount (s sub : String) : Nat :=
  if sub.data.isEmpty then s.data.length + 1
  else pyCountAux sub.data s.data.length s.data

/-- Python s.lower(), on the ASCII range. -/
def pyLower (s : String) : String :=
  ⟨s.data.map Char.toLower⟩

/-- Python s[:n] (strings are indexed by code points). -/
def pyTake (s : String) (n : Nat) : String :=
  ⟨s.data.take n⟩

/-- Python s[n:]. -/
def pyDrop (s : String) (n : Nat) : String :=
  ⟨s.data.drop n⟩

/-- Python os.path.basename on a POSIX path: everything after the last
slash. -/
def pyBasename (p : String) : String :=
  (pySplit p "/").getLastD p

/-- Python s.endswith(suffix). -/
def pyEndsWith (s suffix : String) : Bool :=
  suffix.data.isSuffixOf s.data

/-- Python s.startswith(pre). -/
def pyStartsWith (s pre : String) : Bool :=
  pre.data.isPrefixOf s.data

/-! ## Data model -/

/-- One per-item citation record appended by run_system:
the dict literal of src/main.py lines 122, 136, 149. -/
structure Citation where
  source : String
  topic : String
  audio : String
deriving DecidableEq, Repr

/-- The dict returned by run_system (src/main.py lines 160 to 164). -/
structure PipelineResult where
  synthesis : String
  synthesis_audio : Option String
  citations : List Citation
deriving DecidableEq, Repr

/-- The JSON "message" object of a Crossref works response, restricted to the
fields src/main.py reads.  An outer none models the key being absent from the
JSON object; author objects are represented by their "family" field, whose
inner none models an author object without that key. -/
structure CrossrefMessage where
  title : Option (List String)
  author : Option (List (Option String))
  containerTitle : Option (List String)
  publishedPrint : Option (Option (List (List (Option Int))))
  url : Option String
  abstract : Option String
deriving DecidableEq, Repr

/-- An HTTP response from the bibliographic registry: the status code and the
parsed "message" object of the body (only read when the status is 200). -/
structure HttpResp where
  status_code : Nat
  message : CrossrefMessage
deriving DecidableEq, Repr

/-- The metadata dict built by resolve_doi on the 200 path
(src/main.py lines 50 to 57). -/
structure Metadata where
  title : String
  authors : List (Option String)
  journal : String
  date : Option Int
  link : Option String
  abstract : String
deriving DecidableEq, Repr

/-- Result of resolve_doi when it returns without raising: either the metadata
dict, or the error-marker dict with key "error" (src/main.py line 58). -/
inductive DoiResult where
  | ok (m : Metadata)
  | err
deriving DecidableEq, Repr

/-- The external collaborators of the pipeline, as oracles.
reader models PdfReader: the extracted text of each page of the file, with
none for an open or parse failure that raises.
httpDoi models requests.get against the registry URL.
httpUrl models requests.get plus BeautifulSoup: the text of each paragraph
element of the fetched page, with none for any exception (network error,
timeout, parse failure).
model models the summarization pipeline on a batch of paragraphs: one summary
per input paragraph on success, none when the model call raises. -/
structure Env where
  reader : String → Option (List String)
  httpDoi : String → HttpResp
  httpUrl : String → Option (List String)
  model : List String → Option (List String)

/-! ## Component functions (src/main.py) -/

/-- The shared output directory constant (src/main.py line 19). -/
def OUTPUT_DIR : String := "outputs"

/-- extract_text_from_pdf (src/main.py lines 37 to 40): join the non-empty
page texts with a newline; a reader failure propagates. -/
def extract_text_from_pdf (reader : String → Option (List String))
    (file_path : String) : Option String :=
  match reader file_path with
  | none => none
  | some pages => some (pyJoin "\n" (pages.filter (fun t => t ≠ "")))

/-- resolve_doi (src/main.py lines 45 to 58).  On a 200 response the fields
are read with dict.get defaults; title, container-title and the date parts are
then indexed with [0], which raises IndexError (embedded as none) when the
present value is an empty list.  On any other status the error-marker dict is
returned. -/
def resolve_doi (http : String → HttpResp) (doi : String) : Option DoiResult :=
  let response := http ("https://api.crossref.org/works/" ++ doi)
  if response.status_code = 200 then
    let data := response.message
    match (data.title.getD [""]).head? with
    | none => none
    | some title =>
      match (data.containerTitle.getD [""]).head? with
      | none => none
      | some journal =>
        match ((data.publishedPrint.getD none).getD [[none]]).head? with
        | none => none
        | some firstParts =>
          match firstParts.head? with
          | none => none
          | some date =>
            some (DoiResult.ok
              { title := title
                authors := data.author.getD []
                journal := journal
                date := date
                link := data.url
                abstract := data.abstract.getD "" })
  else
    some DoiResult.err

/-- fetch_url_text (src/main.py lines 63 to 72): join the paragraph texts with
a newline; any exception inside the try block yields the empty string instead
of propagating. -/
def fetch_url_text (httpGet : String → Option (List String)) (url : String) : String :=
  match httpGet url with
  | some paragraphs => pyJoin "\n" paragraphs
  | none => ""

/-- The key function of the max call in classify_topic:
lambda topic: text.lower().count(topic.lower()). -/
def topicKey (text topic : String) : Nat :=
  pyCount (pyLower text) (pyLower topic)

/-- Python max(ts, key) with b the first element: scan left to right, keeping
the current best and replacing it only on a strictly larger key, so the first
element attaining the maximal key wins. -/
def maxByKey (key : String → Nat) (b : String) (ts : List String) : String :=
  ts.foldl (fun best topic => if key topic > key best then topic else best) b

/-- classify_topic (src/main.py lines 77 to 78). -/
def classify_topic (text : String) (topics : List String) : String :=
  match topics with
  | [] => "Unspecified"
  | t :: ts => maxByKey (topicKey text) t ts

/-- generate_summary (src/main.py lines 83 to 90): split on blank lines, keep
the stripped paragraphs longer than 100 characters, feed the batch to the
model, and join the returned summaries with a space; any exception from the
model call is converted into the fixed placeholder string. -/
def generate_summary (model : List String → Option (List String)) (text : String) : String :=
  let paragraphs := ((pySplit text "\n\n").map pyStrip).filter (fun p => p.length > 100)
  match model paragraphs with
  | some summaries => pyJoin " " summaries
  | none => "Summary unavailable."

/-- synthesize_across_papers (src/main.py lines 95 to 96). -/
def synthesize_across_papers (model : List String → Option (List String))
    (summaries : List String) : String :=
  generate_summary model (pyJoin " " summaries)

/-- generate_audio (src/main.py lines 101 to 105): the returned path is
os.path.join(OUTPUT_DIR, filename + ".mp3") on a POSIX system.  Writing the
MP3 is an effect that does not influence the returned value. -/
def generate_audio (filename : String) : String :=
  OUTPUT_DIR ++ "/" ++ filename ++ ".mp3"

/-- The join ", ".join(metadata["authors"]) of src/main.py line 131: the list
holds the family fields of the authors, which are None when the author object lacks
the key, and joining a list containing None raises TypeError (none). -/
def joinAuthors (authors : List (Option String)) : Option String :=
  match authors.mapM id with
  | none => none
  | some names => some (pyJoin ", " names)

/-! ## Pipeline orchestrator (src/main.py lines 110 to 164)

run_system is three independent linear loops followed by one aggregation
step.  Each loop is embedded as a structurally recursive function returning
the pair of lists (summaries, citations) it appends in input order; a none
result models an uncaught exception aborting the whole run.  The URL loop has
no raise point and is therefore total. -/

/-- The PDF loop of run_system (src/main.py lines 115 to 122). -/
def processPdfs (env : Env) (topic_list : List String) :
    List String → Option (List String × List Citation)
  | [] => some ([], [])
  | pdf_path :: rest =>
    match extract_text_from_pdf env.reader pdf_path with
    | none => none
    | some raw_text =>
      let summary := generate_summary env.model raw_text
      let topic := classify_topic summary topic_list
      let audio_path := generate_audio (pyReplace (pyBasename pdf_path) ".pdf" "")
      match processPdfs env topic_list rest with
      | none => none
      | some (ss, cs) =>
        some (summary :: ss, { source := pdf_path, topic := topic, audio := audio_path } :: cs)

/-- The DOI loop of run_system (src/main.py lines 125 to 138): a resolution
returning the error-marker dict is logged and skipped, contributing neither a
summary nor a citation; an exception inside resolve_doi or inside the join of
the author names propagates. -/
def processDois (env : Env) (topic_list : List String) :
    List String → Option (List String × List Citation)
  | [] => some ([], [])
  | doi :: rest =>
    match resolve_doi env.httpDoi doi with
    | none => none
    | some DoiResult.err => processDois env topic_list rest
    | some (DoiResult.ok m) =>
      let abstract :=
        if m.abstract = "" then ""
        else pyReplace (pyReplace m.abstract "<jats:p>" "") "</jats:p>" ""
      match joinAuthors m.authors with
      | none => none
      | some authors =>
        let meta_text :=
          "Title: " ++ m.title ++ "\nJournal: " ++ m.journal ++ "\nAuthors: " ++ authors
            ++ "\n\nAbstract: " ++ abstract
        let summary := generate_summary env.model meta_text
        let topic := classify_topic summary topic_list
        let audio_path := generate_audio (pyReplace doi "/" "_")
        match processDois env topic_list rest with
        | none => none
        | some (ss, cs) =>
          some (summary :: ss, { source := doi, topic := topic, audio := audio_path } :: cs)

/-- The URL loop of run_system (src/main.py lines 141 to 149). -/
def processUrls (env : Env) (topic_list : List String) :
    List String → List String × List Citation
  | [] => ([], [])
  | url :: rest =>
    let content := fetch_url_text env.httpUrl url
    let summary := generate_summary env.model content
    let topic := classify_topic summary topic_list
    let filename := pyReplace (pyReplace (pyReplace url "https://" "") "http://" "") "/" "_"
    let audio_path := generate_audio (pyTake filename 30)
    let rec_result := processUrls env topic_list rest
    (summary :: rec_result.1, { source := url, topic := topic, audio := audio_path } :: rec_result.2)

/-- run_system (src/main.py lines 110 to 164): run the three loops, then
either synthesize a cross-item summary and its audio (when at least one
summary was collected) or return the empty synthesis with no audio. -/
def run_system (env : Env) (pdf_files topic_list doi_list urls : List String) :
    Option PipelineResult :=
  match processPdfs env topic_list pdf_files with
  | none => none
  | some (s1, c1) =>
    match processDois env topic_list doi_list with
    | none => none
    | some (s2, c2) =>
      let urlRes := processUrls env topic_list urls
      let all_summaries := s1 ++ s2 ++ urlRes.1
      let citations := c1 ++ c2 ++ urlRes.2
      if all_summaries.isEmpty then
        some { synthesis := "", synthesis_audio := none, citations := citations }
      else
        some { synthesis := synthesize_across_papers env.model all_summaries
               synthesis_audio := some (generate_audio "final_synthesis")
               citations := citations }

/-- Whether resolve_doi on this DOI returns the metadata dict (rather than the
error marker or an exception), i.e. whether the DOI item is successfully
processed by the DOI loop. -/
def doiResolved (env : Env) (doi : String) : Bool :=
  match resolve_doi env.httpDoi doi with
  | some (DoiResult.ok _) => true
  | _ => false

/-- The base filename run_system passes to generate_audio for a URL item
(src/main.py lines 146 to 147): every occurrence of the two scheme strings
removed, slashes replaced by underscores, then truncated to 30 characters. -/
def url_audio_basename (url : String) : String :=
  pyTake (pyReplace (pyReplace (pyReplace url "https://" "") "http://" "") "/" "_") 30

/-- Modelled from the claim wording of C6 (not from the source): the URL with
the scheme removed only when it occurs as a leading prefix of the string, then
slashes replaced by underscores, then truncated to 30 characters. -/
def claim_url_basename (url : String) : String :=
  let stripped :=
    if pyStartsWith url "https://" then pyDrop url 8
    else if pyStartsWith url "http://" then pyDrop url 7
    else url
  pyTake (pyReplace stripped "/" "_") 30

/-! ## REST endpoints

Both FastAPI apps expose a POST /process handler.  The JSON parse of the data
form field is modelled by an oracle jsonParse whose error carries str(e); the
parsed object is modelled by its three optional keys.  run_system is passed in
as a function argument so that theorems can express that a response was
produced without consulting it. -/

/-- The parsed JSON object of the data form field, restricted to the keys the
handlers read; none models an absent key. -/
structure JsonData where
  doi_list : Option (List String)
  urls : Option (List String)
  topic_list : Option (List String)
deriving DecidableEq, Repr

/-- Responses of the api.py handler: a 200 with the pipeline result, an
HTTPException with a status code and detail, or the generic 500 wrapper. -/
inductive ApiResponse where
  | ok (r : PipelineResult)
  | clientError (status : Nat) (detail : String)
  | serverError (status : Nat) (detail : String)
deriving DecidableEq, Repr

/-- Responses of the main.py handler: a 200 with the pipeline result, or the
200 body with the single key "error" produced by its generic exception
handler. -/
inductive MainResponse where
  | ok (r : PipelineResult)
  | errorObj (message : String)
deriving DecidableEq, Repr

/-- process_papers of src/api.py (lines 66 to 148): reject an unparseable
data field with HTTP 400; save the uploads (modelled by the tempName oracle
mapping an upload to its temporary path); reject with HTTP 400 when no PDFs,
no DOIs and no URLs were supplied; otherwise invoke run_system, converting an
uncaught exception into the generic HTTP 500. -/
def api_process_papers
    (runner : List String → List String → List String → List String → Option PipelineResult)
    (jsonParse : String → Except String JsonData) (tempName : String → String)
    (pdf_files : List String) (data : String) : ApiResponse :=
  match jsonParse data with
  | Except.error _ => ApiResponse.clientError 400 "Invalid JSON data"
  | Except.ok jd =>
    let doi_list := jd.doi_list.getD []
    let urls := jd.urls.getD []
    let topic_list := jd.topic_list.getD []
    let pdf_paths := pdf_files.map tempName
    if pdf_paths.isEmpty && doi_list.isEmpty && urls.isEmpty then
      ApiResponse.clientError 400 "At least one input type (PDFs, DOIs, or URLs) is required"
    else
      match runner pdf_paths topic_list doi_list urls with
      | some r => ApiResponse.ok r
      | none => ApiResponse.serverError 500 "Internal server error"

/-- process_papers of src/main.py (lines 174 to 207): the whole body sits in
one try block whose generic handler returns a body with the key "error"; an
unparseable data field therefore yields that error object.  Uploads whose
filename ends in ".pdf" are saved under OUTPUT_DIR.  There is no emptiness
check: run_system is invoked unconditionally after parsing. -/
def main_process_papers
    (runner : List String → List String → List String → List String → Option PipelineResult)
    (jsonParse : String → Except String JsonData)
    (pdf_files : List String) (data : String) : MainResponse :=
  match jsonParse data with
  | Except.error e => MainResponse.errorObj e
  | Except.ok jd =>
    let topic_list := jd.topic_list.getD []
    let doi_list := jd.doi_list.getD []
    let urls := jd.urls.getD []
    let pdf_paths :=
      (pdf_files.filter (fun name => pyEndsWith name ".pdf")).map
        (fun name => OUTPUT_DIR ++ "/" ++ name)
    match runner pdf_paths topic_list doi_list urls with
    | some r => MainResponse.ok r
    | none => MainResponse.errorObj "internal exception"

/-! ## Concrete instances used by witnesses and counterexamples -/

/-- A message object with every key absent. -/
def msgAbsent : CrossrefMessage :=
  { title := none, author := none, containerTitle := none
    publishedPrint := none, url := none, abstract := none }

/-- A well-formed 200 body whose "title" key is present and bound to the empty
list. -/
def msgEmptyTitle : CrossrefMessage :=
  { title := some [], author := none, containerTitle := none
    publishedPrint := none, url := none, abstract := none }

/-- A well-formed 200 body whose "container-title" key is present and bound to
the empty list. -/
def msgEmptyContainer : CrossrefMessage :=
  { title := none, author := none, containerTitle := some []
    publishedPrint := none, url := none, abstract := none }

/-- A small concrete environment: the PDF reader yields a document with no
extractable pages, the registry answers 404 to everything, every URL fetch
fails, and the model raises on every batch. -/
def envW : Env :=
  { reader := fun _ => some []
    httpDoi := fun _ => { status_code := 404, message := msgAbsent }
    httpUrl := fun _ => none
    model := fun _ => none }

/-- A concrete JSON parse oracle: the literal text of an empty JSON object
parses to the object with no keys, anything else fails to parse. -/
def jsonParseW (s : String) : Except String JsonData :=
  if s = "{}" then Except.ok { doi_list := none, urls := none, topic_list := none }
  else Except.error "Expecting value: line 1 column 1 (char 0)"

/-! ## Helper lemmas -/

/-- The Python max scan over a non-empty list b :: ts returns the first
element attaining the maximal key: the list decomposes around the returned
element, with strictly smaller keys before it and no larger key after it. -/
theorem maxByKey_decomp (key : String → Nat) (ts : List String) :
    ∀ b : String, ∃ as bs, b :: ts = as ++ maxByKey key b ts :: bs
      ∧ (∀ a ∈ as, key a < key (maxByKey key b ts))
      ∧ (∀ x ∈ bs, key x ≤ key (maxByKey key b ts)) := by
  induction ts with
  | nil =>
    intro b
    exact ⟨[], [], rfl, by simp, by simp⟩
  | cons t ts ih =>
    intro b
    by_cases hkt : key t > key b
    · have hstep : maxByKey key b (t :: ts) = maxByKey key t ts := by
        simp [maxByKey, if_pos hkt]
      obtain ⟨as, bs, hdec, hlt, hle⟩ := ih t
      have htle : key t ≤ key (maxByKey key t ts) := by
        cases as with
        | nil =>
          simp only [List.nil_append, List.cons.injEq] at hdec
          nth_rewrite 1 [hdec.1]
          exact Nat.le_refl _
        | cons a as' =>
          simp only [List.cons_append, List.cons.injEq] at hdec
          exact Nat.le_of_lt (hdec.1 ▸ hlt a (List.mem_cons_self a as'))
      refine ⟨b :: as, bs, ?_, ?_, ?_⟩
      · rw [hstep, List.cons_append, ← hdec]
      · intro a ha
        rw [hstep]
        rcases List.mem_cons.mp ha with h | h
        · exact h ▸ Nat.lt_of_lt_of_le hkt htle
        · exact hlt a h
      · intro x hx
        rw [hstep]
        exact hle x hx
    · have hstep : maxByKey key b (t :: ts) = maxByKey key b ts := by
        simp [maxByKey, if_neg hkt]
      have htb : key t ≤ key b := Nat.le_of_not_lt hkt
      obtain ⟨as, bs, hdec, hlt, hle⟩ := ih b
      cases as with
      | nil =>
        simp only [List.nil_append, List.cons.injEq] at hdec
        refine ⟨[], t :: bs, ?_, by simp, ?_⟩
        · rw [hstep, List.nil_append, ← hdec.1, hdec.2]
        · intro x hx
          rw [hstep, ← hdec.1]
          rcases List.mem_cons.mp hx with h | h
          · exact h ▸ htb
          · exact hdec.1 ▸ hle x h
      | cons a as' =>
        simp only [List.cons_append, List.cons.injEq] at hdec
        have hblt : key b < key (maxByKey key b ts) :=
          hdec.1 ▸ hlt a (List.mem_cons_self a as')
        refine ⟨b :: t :: as', bs, ?_, ?_, ?_⟩
        · rw [hstep]
          nth_rewrite 1 [hdec.2]
          simp
        · intro x hx
          rw [hstep]
          rcases List.mem_cons.mp hx with h | h
          · exact h ▸ hblt
          · rcases List.mem_cons.mp h with h' | h'
            · exact h' ▸ Nat.lt_of_le_of_lt htb hblt
            · exact hlt x (List.mem_cons_of_mem a h')
        · intro x hx
          rw [hstep]
          exact hle x hx

/-! ## Claims -/

/-- C1: for every text S and topic sequence T, classify_topic returns the
fixed label "Unspecified" when T is empty, and otherwise an element of T,
namely the label whose case-insensitive substring occurrence count in S is
maximal, ties broken by first-occurrence order in T: T splits around the
returned label into earlier labels with strictly smaller counts and later
labels with counts no larger. -/
theorem classify_topic_correct (text : String) (topics : List String) :
    (topics = [] → classify_topic text topics = "Unspecified")
    ∧ (topics ≠ [] →
        classify_topic text topics ∈ topics
        ∧ ∃ as bs, topics = as ++ classify_topic text topics :: bs
            ∧ (∀ a ∈ as, topicKey text a < topicKey text (classify_topic text topics))
            ∧ (∀ x ∈ bs, topicKey text x ≤ topicKey text (classify_topic text topics))) := by
  constructor
  · intro h
    rw [h]
    rfl
  · intro h
    match topics with
    | [] => exact absurd rfl h
    | t :: ts =>
      have hc : classify_topic text (t :: ts) = maxByKey (topicKey text) t ts := rfl
      obtain ⟨as, bs, hdec, hlt, hle⟩ := maxByKey_decomp (topicKey text) ts t
      refine ⟨?_, as, bs, ?_, ?_, ?_⟩
      · rw [hc, hdec]
        exact List.mem_append.mpr (Or.inr (List.mem_cons_self _ bs))
      · rw [hc]
        exact hdec
      · rw [hc]
        exact hlt
      · rw [hc]
        exact hle

/-- Witness for C1 at concrete inputs: on a two-label list the second label,
occurring twice against zero occurrences of the first, is returned and is an
element of the list; on a tie the first label in the list order wins. -/
theorem classify_topic_correct_witness :
    classify_topic "machine learning and learning" ["ai", "learning"] = "learning"
    ∧ classify_topic "machine learning and learning" ["ai", "learning"]
        ∈ (["ai", "learning"] : List String)
    ∧ classify_topic "alpha beta" ["beta", "alpha"] = "beta" :=
  ⟨by decide,
   ((classify_topic_correct "machine learning and learning" ["ai", "learning"]).2
      (by decide)).1,
   by decide⟩

/-- C2 counterexample: the text "short text" has a single paragraph of
trimmed length 10, so every paragraph is at most 100 characters and the model
receives the empty batch; under a model that returns one summary per input
paragraph (the contract of the summarization collaborator), generate_summary
returns the empty string, not the placeholder "Summary unavailable.". -/
theorem generate_summary_all_short_cex :
    pySplit "short text" "\n\n" = ["short text"]
    ∧ (pyStrip "short text").length = 10
    ∧ generate_summary (fun ps => some (ps.map (fun _ => "a summary"))) "short text" = ""
    ∧ generate_summary (fun ps => some (ps.map (fun _ => "a summary"))) "short text"
        ≠ "Summary unavailable." :=
  ⟨by decide, by decide, by decide, by decide⟩

/-- C2 amended: for every input text whose paragraphs all have trimmed length
at most 100 characters, no paragraph survives the length filter and the model
call receives the empty batch; generate_summary then returns the placeholder
"Summary unavailable." exactly when that call raises, and otherwise returns
the space-join of the summaries the model returned on the empty batch, which
is the empty string for any model returning one summary per input. -/
theorem generate_summary_all_short (model : List String → Option (List String))
    (text : String) (h : ∀ p ∈ pySplit text "\n\n", (pyStrip p).length ≤ 100) :
    (model [] = none → generate_summary model text = "Summary unavailable.")
    ∧ (∀ outs, model [] = some outs → generate_summary model text = pyJoin " " outs) := by
  have hfil : ((pySplit text "\n\n").map pyStrip).filter (fun p => p.length > 100) = [] := by
    rw [List.filter_eq_nil_iff]
    intro a ha
    obtain ⟨p, hp, hps⟩ := List.mem_map.mp ha
    subst hps
    simpa using Nat.not_lt.mpr (h p hp)
  constructor
  · intro hm
    simp only [generate_summary, hfil, hm]
  · intro outs hm
    simp only [generate_summary, hfil, hm]

/-- Witness for C2 amended at a concrete input: with a model that raises on
every batch, generate_summary on the short text returns the placeholder. -/
theorem generate_summary_all_short_witness :
    generate_summary (fun _ => none) "short text" = "Summary unavailable." :=
  (generate_summary_all_short (fun _ => none) "short text" (by decide)).1 rfl

/-- C3: run_system with zero PDF paths, zero DOIs and zero URLs returns the
PipelineResult with empty synthesis, null synthesis audio and no citations.
The statement holds for every environment, so no summarization model call and
no audio synthesis influences the result. -/
theorem run_system_empty_inputs (env : Env) (topic_list : List String) :
    run_system env [] topic_list [] [] =
      some { synthesis := "", synthesis_audio := none, citations := [] } := rfl

/-- C5: resolve_doi on any registry response with a status other than 200
returns the error-marker record (and none of the metadata fields) rather than
raising. -/
theorem resolve_doi_non200 (http : String → HttpResp) (doi : String)
    (h : (http ("https://api.crossref.org/works/" ++ doi)).status_code ≠ 200) :
    resolve_doi http doi = some DoiResult.err := by
  simp only [resolve_doi, if_neg h]

/-- Witness for C5 at a concrete input: the environment whose registry
answers 404 to everything yields the error marker. -/
theorem resolve_doi_non200_witness :
    resolve_doi envW.httpDoi "10.1/x" = some DoiResult.err :=
  resolve_doi_non200 envW.httpDoi "10.1/x" (by decide)

/-- C8: fetch_url_text is total by construction (it returns a plain string
where the fallible collaborators return an Option); on any failure of the
fetch-and-parse step it returns the empty string.  In contrast, a failure of
the PDF reader propagates out of extract_text_from_pdf, and resolve_doi can
propagate an exception even on a 200 response. -/
theorem fetch_url_text_soft_fail (g reader : String → Option (List String))
    (url path : String) (hg : g url = none) (hr : reader path = none) :
    fetch_url_text g url = ""
    ∧ extract_text_from_pdf reader path = none
    ∧ resolve_doi (fun _ => { status_code := 200, message := msgEmptyTitle }) "10.1/x" = none := by
  refine ⟨?_, ?_, by decide⟩
  · simp only [fetch_url_text, hg]
  · simp only [extract_text_from_pdf, hr]

/-- Witness for C8 at concrete inputs: a URL whose fetch raises yields the
empty string, while a PDF whose open raises propagates the failure. -/
theorem fetch_url_text_soft_fail_witness :
    fetch_url_text (fun _ => none) "http://e.com" = ""
    ∧ extract_text_from_pdf (fun _ => none) "a.pdf" = none :=
  ⟨(fetch_url_text_soft_fail (fun _ => none) (fun _ => none) "http://e.com" "a.pdf" rfl rfl).1,
   (fetch_url_text_soft_fail (fun _ => none) (fun _ => none) "http://e.com" "a.pdf" rfl rfl).2.1⟩

/-- C9: resolve_doi is not total over well-formed 200 responses: a "title"
key (or "container-title" key) bound to the empty list makes the [0] indexing
raise (embedded as none), whereas the documented defaulting to the empty
string applies only when the keys are absent. -/
theorem resolve_doi_empty_list_raises :
    resolve_doi (fun _ => { status_code := 200, message := msgEmptyTitle }) "10.1/y" = none
    ∧ resolve_doi (fun _ => { status_code := 200, message := msgEmptyContainer }) "10.1/y" = none
    ∧ resolve_doi (fun _ => { status_code := 200, message := msgAbsent }) "10.1/y"
        = some (DoiResult.ok
            { title := "", authors := [], journal := "", date := none
              link := none, abstract := "" }) :=
  ⟨by decide, by decide, by decide⟩

/-- The PDF loop appends summaries and citations in lockstep, one citation
per input path, in input order. -/
theorem processPdfs_spec (env : Env) (t : List String) :
    ∀ pdfs ss cs, processPdfs env t pdfs = some (ss, cs) →
      ss.length = cs.length ∧ cs.map Citation.source = pdfs := by
  intro pdfs
  induction pdfs with
  | nil =>
    intro ss cs h
    simp only [processPdfs, Option.some.injEq, Prod.mk.injEq] at h
    obtain ⟨h1, h2⟩ := h
    subst h1
    subst h2
    exact ⟨rfl, rfl⟩
  | cons p rest ih =>
    intro ss cs h
    simp only [processPdfs] at h
    cases hx : extract_text_from_pdf env.reader p with
    | none =>
      rw [hx] at h
      exact absurd h (by simp)
    | some raw =>
      rw [hx] at h
      cases hr : processPdfs env t rest with
      | none =>
        rw [hr] at h
        exact absurd h (by simp)
      | some pair =>
        obtain ⟨ss', cs'⟩ := pair
        rw [hr] at h
        simp only [Option.some.injEq, Prod.mk.injEq] at h
        obtain ⟨h1, h2⟩ := h
        subst h1
        subst h2
        obtain ⟨ihl, ihs⟩ := ih ss' cs' hr
        exact ⟨by simp [ihl], by simp [ihs]⟩

/-- The DOI loop appends summaries and citations in lockstep; it appends one
citation per DOI whose resolution returned the metadata dict, in input order,
and nothing for a DOI whose resolution returned the error marker. -/
theorem processDois_spec (env : Env) (t : List String) :
    ∀ dois ss cs, processDois env t dois = some (ss, cs) →
      ss.length = cs.length ∧ cs.map Citation.source = dois.filter (doiResolved env) := by
  intro dois
  induction dois with
  | nil =>
    intro ss cs h
    simp only [processDois, Option.some.injEq, Prod.mk.injEq] at h
    obtain ⟨h1, h2⟩ := h
    subst h1
    subst h2
    exact ⟨rfl, rfl⟩
  | cons d rest ih =>
    intro ss cs h
    simp only [processDois] at h
    split at h
    next hx => exact absurd h (by simp)
    next hx =>
      have hfd : doiResolved env d = false := by simp [doiResolved, hx]
      obtain ⟨ihl, ihs⟩ := ih ss cs h
      refine ⟨ihl, ?_⟩
      rw [List.filter_cons_of_neg (by simp [hfd])]
      exact ihs
    next m hx =>
      have hfd : doiResolved env d = true := by simp [doiResolved, hx]
      split at h
      next hj => exact absurd h (by simp)
      next authors hj =>
        split at h
        next hr => exact absurd h (by simp)
        next ss2 cs2 hr =>
          simp only [Option.some.injEq, Prod.mk.injEq] at h
          obtain ⟨h1, h2⟩ := h
          subst h1
          subst h2
          obtain ⟨ihl, ihs⟩ := ih ss2 cs2 hr
          refine ⟨by simp [ihl], ?_⟩
          rw [List.filter_cons_of_pos (by simp [hfd])]
          simp [ihs]

/-- The URL loop is total: it appends summaries and citations in lockstep,
one citation per URL in input order, and the audio path of each citation is
the sanitized and truncated URL under the output directory with the mp3
suffix. -/
theorem processUrls_spec (env : Env) (t : List String) :
    ∀ urls, (processUrls env t urls).1.length = (processUrls env t urls).2.length
      ∧ (processUrls env t urls).2.map Citation.source = urls
      ∧ (processUrls env t urls).2.map Citation.audio
          = urls.map (fun u => generate_audio (url_audio_basename u)) := by
  intro urls
  induction urls with
  | nil => exact ⟨rfl, rfl, rfl⟩
  | cons u rest ih =>
    obtain ⟨ih1, ih2, ih3⟩ := ih
    refine ⟨?_, ?_, ?_⟩
    · simp [processUrls, ih1]
    · simp [processUrls, ih2]
    · simp only [processUrls, List.map_cons, ih3, url_audio_basename]

/-- Decomposition of a completed run: the citation list is the concatenation
of the three per-phase citation lists, the summary and citation lists have
equal length, and the synthesis audio is present exactly when at least one
summary was collected. -/
theorem run_system_decomp (env : Env) (pdfs topics dois urls : List String)
    (r : PipelineResult) (h : run_system env pdfs topics dois urls = some r) :
    ∃ s1 c1 s2 c2,
      processPdfs env topics pdfs = some (s1, c1)
      ∧ processDois env topics dois = some (s2, c2)
      ∧ r.citations = c1 ++ c2 ++ (processUrls env topics urls).2
      ∧ r.synthesis_audio
          = (if (s1 ++ s2 ++ (processUrls env topics urls).1).isEmpty then none
             else some (generate_audio "final_synthesis")) := by
  simp only [run_system] at h
  split at h
  next h1 => exact absurd h (by simp)
  next s1 c1 h1 =>
    split at h
    next h2 => exact absurd h (by simp)
    next s2 c2 h2 =>
      refine ⟨s1, c1, s2, c2, h1, h2, ?_⟩
      split at h
      next hemp =>
        simp only [Option.some.injEq] at h
        rw [← h]
        refine ⟨rfl, ?_⟩
        rw [if_pos hemp]
      next hemp =>
        simp only [Option.some.injEq] at h
        rw [← h]
        refine ⟨rfl, ?_⟩
        rw [if_neg hemp]

/-- C4: on every completed run, the citations list holds exactly one record
per successfully processed input item, in input-enumeration order: all PDF
paths in order, then exactly the DOIs whose resolution returned the metadata
dict (a DOI answered with the error marker contributes nothing), then all
URLs in order; and the DOI phase appends summaries and citations in lockstep,
so a skipped DOI also contributes no summary. -/
theorem run_system_citation_sources (env : Env) (pdfs topics dois urls : List String)
    (r : PipelineResult) (h : run_system env pdfs topics dois urls = some r) :
    r.citations.map Citation.source = pdfs ++ dois.filter (doiResolved env) ++ urls
    ∧ (processDois env topics dois).map (fun p => p.1.length)
        = (processDois env topics dois).map (fun p => p.2.length) := by
  obtain ⟨s1, c1, s2, c2, h1, h2, hcit, _⟩ := run_system_decomp env pdfs topics dois urls r h
  obtain ⟨hl1, hs1⟩ := processPdfs_spec env topics pdfs s1 c1 h1
  obtain ⟨hl2, hs2⟩ := processDois_spec env topics dois s2 c2 h2
  obtain ⟨hl3, hs3, ha3⟩ := processUrls_spec env topics urls
  constructor
  · rw [hcit]
    simp [hs1, hs2, hs3]
  · rw [h2]
    simp [hl2]

/-- The result of the concrete run used by the orchestrator witnesses: one
PDF with no extractable text, one DOI answered 404 (skipped), one URL whose
fetch fails, under a model that raises on every batch. -/
def rW : PipelineResult :=
  { synthesis := "Summary unavailable."
    synthesis_audio := some "outputs/final_synthesis.mp3"
    citations := [ { source := "a.pdf", topic := "Unspecified", audio := "outputs/a.mp3" },
                   { source := "http://e.com/z", topic := "Unspecified"
                     audio := "outputs/e.com_z.mp3" } ] }

/-- Witness for C4 at a concrete input: the run with one PDF, one failing DOI
and one URL yields citations for the PDF and the URL only, in that order. -/
theorem run_system_citation_sources_witness :
    rW.citations.map Citation.source
      = ["a.pdf"] ++ List.filter (doiResolved envW) ["10.1/x"] ++ ["http://e.com/z"]
    ∧ (processDois envW [] ["10.1/x"]).map (fun p => p.1.length)
        = (processDois envW [] ["10.1/x"]).map (fun p => p.2.length) :=
  run_system_citation_sources envW ["a.pdf"] [] ["10.1/x"] ["http://e.com/z"] rW (by decide)

/-- C10: in every PipelineResult returned by run_system, the synthesis audio
is absent exactly when the citations list is empty: the summary and citation
lists of the three phases grow in lockstep, so the cross-item synthesis and
its audio exist precisely when some citation record exists. -/
theorem run_system_audio_iff_citations (env : Env) (pdfs topics dois urls : List String)
    (r : PipelineResult) (h : run_system env pdfs topics dois urls = some r) :
    r.synthesis_audio = none ↔ r.citations = [] := by
  obtain ⟨s1, c1, s2, c2, h1, h2, hcit, haud⟩ := run_system_decomp env pdfs topics dois urls r h
  obtain ⟨hl1, _⟩ := processPdfs_spec env topics pdfs s1 c1 h1
  obtain ⟨hl2, _⟩ := processDois_spec env topics dois s2 c2 h2
  obtain ⟨hl3, _, _⟩ := processUrls_spec env topics urls
  rw [hcit, haud]
  have hlen : (s1 ++ s2 ++ (processUrls env topics urls).1).length
      = (c1 ++ c2 ++ (processUrls env topics urls).2).length := by
    simp [hl1, hl2, hl3]
  constructor
  · intro hnone
    by_cases hemp : (s1 ++ s2 ++ (processUrls env topics urls).1).isEmpty
    · have : s1 ++ s2 ++ (processUrls env topics urls).1 = [] := by
        simpa [List.isEmpty_iff] using hemp
      have : (c1 ++ c2 ++ (processUrls env topics urls).2).length = 0 := by
        rw [← hlen, this]
        rfl
      exact List.eq_nil_of_length_eq_zero this
    · rw [if_neg hemp] at hnone
      exact absurd hnone (by simp)
  · intro hnil
    have : (s1 ++ s2 ++ (processUrls env topics urls).1).length = 0 := by
      rw [hlen, hnil]
      rfl
    have hemp : (s1 ++ s2 ++ (processUrls env topics urls).1).isEmpty := by
      rw [List.isEmpty_iff]
      exact List.eq_nil_of_length_eq_zero this
    rw [if_pos hemp]

/-- Witness for C10 at a concrete input: the run behind rW has a synthesis
audio path and a non-empty citations list, and the equivalence holds for
it. -/
theorem run_system_audio_iff_citations_witness :
    rW.synthesis_audio = none ↔ rW.citations = [] :=
  run_system_audio_iff_citations envW ["a.pdf"] [] ["10.1/x"] ["http://e.com/z"] rW (by decide)

/-- Truncation bound for the Python slice. -/
theorem pyTake_length_le (s : String) (n : Nat) : (pyTake s n).length ≤ n := by
  show (s.data.take n).length ≤ n
  rw [List.length_take]
  exact Nat.min_le_left n _

/-- C6 counterexample: the source removes every occurrence of the scheme
strings, not only a leading scheme.  On the URL "x/https://y" the audio file
written by the URL phase is "outputs/x_y.mp3", while the name obtained from
the claim wording (scheme removed only as a leading pattern) differs. -/
theorem url_audio_name_cex :
    url_audio_basename "x/https://y" = "x_y"
    ∧ (processUrls envW [] ["x/https://y"]).2.map Citation.audio = ["outputs/x_y.mp3"]
    ∧ claim_url_basename "x/https://y" = "x_https:__y"
    ∧ OUTPUT_DIR ++ "/" ++ claim_url_basename "x/https://y" ++ ".mp3" ≠ "outputs/x_y.mp3" :=
  ⟨by decide, by decide, by decide, by decide⟩

/-- C6 amended: for every completed run, the last citations are the URL-phase
citations; the audio path of each URL citation is the shared output directory plus
the base name plus the ".mp3" suffix, where the base name is the URL with
every occurrence of "https://" and "http://" removed and slashes replaced by
underscores, truncated to at most 30 characters. -/
theorem run_system_url_audio_names (env : Env) (pdfs topics dois urls : List String)
    (r : PipelineResult) (h : run_system env pdfs topics dois urls = some r) :
    r.citations.drop (r.citations.length - urls.length) = (processUrls env topics urls).2
    ∧ (processUrls env topics urls).2.map Citation.audio
        = urls.map (fun u => OUTPUT_DIR ++ "/" ++ url_audio_basename u ++ ".mp3")
    ∧ urls.all (fun u => (url_audio_basename u).length ≤ 30) = true := by
  obtain ⟨s1, c1, s2, c2, h1, h2, hcit, _⟩ := run_system_decomp env pdfs topics dois urls r h
  obtain ⟨_, hs3, ha3⟩ := processUrls_spec env topics urls
  have hlen : (processUrls env topics urls).2.length = urls.length := by
    conv_rhs => rw [← hs3]
    exact (List.length_map _ _).symm
  refine ⟨?_, ?_, ?_⟩
  · rw [hcit]
    have : (c1 ++ c2 ++ (processUrls env topics urls).2).length - urls.length
        = (c1 ++ c2).length := by
      rw [List.length_append, hlen, Nat.add_sub_cancel]
    rw [this, List.drop_left]
  · rw [ha3]
    rfl
  · rw [List.all_eq_true]
    intro u _
    simpa using pyTake_length_le
      (pyReplace (pyReplace (pyReplace u "https://" "") "http://" "") "/" "_") 30

/-- The result of the concrete single-URL run used by the C6 witness. -/
def rW6 : PipelineResult :=
  { synthesis := "Summary unavailable."
    synthesis_audio := some "outputs/final_synthesis.mp3"
    citations := [ { source := "http://e.com/z", topic := "Unspecified"
                     audio := "outputs/e.com_z.mp3" } ] }

/-- Witness for C6 amended at a concrete input: a run with one URL. -/
theorem run_system_url_audio_names_witness :
    rW6.citations.drop (rW6.citations.length - (["http://e.com/z"] : List String).length)
      = (processUrls envW [] ["http://e.com/z"]).2
    ∧ (processUrls envW [] ["http://e.com/z"]).2.map Citation.audio
        = (["http://e.com/z"] : List String).map
            (fun u => OUTPUT_DIR ++ "/" ++ url_audio_basename u ++ ".mp3")
    ∧ (["http://e.com/z"] : List String).all
        (fun u => (url_audio_basename u).length ≤ 30) = true :=
  run_system_url_audio_names envW [] [] [] ["http://e.com/z"] rW6 (by decide)

/-- C7 counterexample: the main.py /process handler has no emptiness check.
With no PDFs and a data field parsing to an object with no keys, it invokes
run_system on empty lists and returns the empty pipeline result instead of
rejecting; the response depends on the runner, so run_system is invoked. -/
theorem process_papers_no_items_cex :
    main_process_papers (run_system envW) jsonParseW [] "{}"
      = MainResponse.ok { synthesis := "", synthesis_audio := none, citations := [] }
    ∧ main_process_papers (fun _ _ _ _ => none) jsonParseW [] "{}"
      = MainResponse.errorObj "internal exception" :=
  ⟨by decide, by decide⟩

/-- C7 amended: the api.py /process handler rejects an unparseable data field
and an empty input set with HTTP 400, in both cases without consulting the
pipeline runner; the main.py /process handler likewise answers an unparseable
data field with its error object without consulting the runner, but given no
input items it invokes run_system on empty lists and returns its result. -/
theorem process_endpoints_validation
    (runner runner' : List String → List String → List String → List String → Option PipelineResult)
    (jsonParse : String → Except String JsonData) (tempName : String → String)
    (pdf_files : List String) (dataBad dataOk : String) (e : String) (jd : JsonData)
    (r : PipelineResult)
    (hbad : jsonParse dataBad = Except.error e)
    (hok : jsonParse dataOk = Except.ok jd)
    (hpdf : pdf_files = [])
    (hdoi : jd.doi_list.getD [] = [])
    (hurl : jd.urls.getD [] = [])
    (hrun : runner [] (jd.topic_list.getD []) [] [] = some r) :
    (api_process_papers runner jsonParse tempName pdf_files dataBad
        = ApiResponse.clientError 400 "Invalid JSON data"
      ∧ api_process_papers runner jsonParse tempName pdf_files dataBad
        = api_process_papers runner' jsonParse tempName pdf_files dataBad)
    ∧ (api_process_papers runner jsonParse tempName pdf_files dataOk
        = ApiResponse.clientError 400 "At least one input type (PDFs, DOIs, or URLs) is required"
      ∧ api_process_papers runner jsonParse tempName pdf_files dataOk
        = api_process_papers runner' jsonParse tempName pdf_files dataOk)
    ∧ (main_process_papers runner jsonParse pdf_files dataBad = MainResponse.errorObj e
      ∧ main_process_papers runner jsonParse pdf_files dataBad
        = main_process_papers runner' jsonParse pdf_files dataBad)
    ∧ main_process_papers runner jsonParse pdf_files dataOk = MainResponse.ok r := by
  subst hpdf
  refine ⟨⟨?_, ?_⟩, ⟨?_, ?_⟩, ⟨?_, ?_⟩, ?_⟩
  · simp [api_process_papers, hbad]
  · simp [api_process_papers, hbad]
  · simp [api_process_papers, hok, hdoi, hurl]
  · simp [api_process_papers, hok, hdoi, hurl]
  · simp [main_process_papers, hbad]
  · simp [main_process_papers, hbad]
  · simp [main_process_papers, hok, hdoi, hurl, hrun]

/-- Witness for C7 amended at concrete inputs: jsonParseW parses the literal
text of the empty JSON object and fails on anything else; the runner is the
pipeline on envW and the alternative runner always raises. -/
theorem process_endpoints_validation_witness :
    (api_process_papers (run_system envW) jsonParseW id [] "not json"
        = ApiResponse.clientError 400 "Invalid JSON data"
      ∧ api_process_papers (run_system envW) jsonParseW id [] "not json"
        = api_process_papers (fun _ _ _ _ => none) jsonParseW id [] "not json")
    ∧ (api_process_papers (run_system envW) jsonParseW id [] "{}"
        = ApiResponse.clientError 400 "At least one input type (PDFs, DOIs, or URLs) is required"
      ∧ api_process_papers (run_system envW) jsonParseW id [] "{}"
        = api_process_papers (fun _ _ _ _ => none) jsonParseW id [] "{}")
    ∧ (main_process_papers (run_system envW) jsonParseW [] "not json"
        = MainResponse.errorObj "Expecting value: line 1 column 1 (char 0)"
      ∧ main_process_papers (run_system envW) jsonParseW [] "not json"
        = main_process_papers (fun _ _ _ _ => none) jsonParseW [] "not json")
    ∧ main_process_papers (run_system envW) jsonParseW [] "{}"
        = MainResponse.ok { synthesis := "", synthesis_audio := none, citations := [] } :=
  process_endpoints_validation (run_system envW) (fun _ _ _ _ => none) jsonParseW id
    [] "not json" "{}" "Expecting value: line 1 column 1 (char 0)"
    { doi_list := none, urls := none, topic_list := none }
    { synthesis := "", synthesis_audio := none, citations := [] }
    (by rfl) (by rfl) rfl rfl rfl (by decide)
